import Mathlib

/-!
Shallow embedding of `src/libs/ma_context_alloc_handler/include/ma/context_alloc_handler.hpp`
(namespace `ma` of the asio_samples repository).

The header defines two template adapters, `context_alloc_handler` and
`explicit_context_alloc_handler`, each storing a `context_` object and a
`handler_` object, together with the Asio customization-point hooks
(`asio_handler_allocate`, `asio_handler_deallocate`, `asio_handler_invoke`,
`asio_handler_is_continuation`) and `operator()` overloads for 0 through 5
arguments in const and non-const variants, plus the factory functions
`make_context_alloc_handler` and `make_explicit_context_alloc_handler`.

Modelling choices:
* A C++ call that returns `void` and may throw an exception of type `ε` is
  modelled as `Except ε Unit`; `asio_handler_allocate` returns `void*`,
  modelled as `Except ε Nat` (a pointer value that may fail by throwing).
* A handler or context object is modelled as a record of the strategies the
  Asio customization-point protocol associates with it (allocation,
  deallocation, invoke/execution, continuation decision, and its `operator()`
  at each arity).  Function objects passed to `asio_handler_invoke` are an
  abstract type `φ`; the five `operator()` argument positions have abstract
  types `α1 .. α5`.
* Perfect forwarding (`MA_FWD_REF` / `detail::forward`) and `detail::decay`
  are type-level value-category devices with no run-time content; in the
  embedding an argument is simply passed on as a value.
-/

namespace ma

/-- Modelled from the spec: the handler customization-point protocol of the
asynchronous I/O framework — "a convention of free functions that the
framework calls to allocate handler-associated memory, deallocate it, decide
whether a handler represents a continuation, and decide how to dispatch a
posted function object".  The helper headers `ma/handler_alloc_helpers.hpp`,
`ma/handler_invoke_helpers.hpp` and `ma/handler_cont_helpers.hpp` are not
under `src/`; an object taking part in the protocol is therefore modelled as
a record carrying its strategies directly.  `Context` models a context
object: its allocation/deallocation strategies, its invoke strategy and its
continuation decision. -/
structure Context (ε φ : Type) where
  allocate : Nat → Except ε Nat
  deallocate : Nat → Nat → Except ε Unit
  invoke : φ → Except ε Unit
  is_continuation : Bool

/-- Modelled from the spec: a source handler wrapped by
`context_alloc_handler` — its strategies under the customization-point
protocol together with its `operator()` at arities 0 through 5 (the
signature the wrapper forwards unchanged). -/
structure Handler (ε φ α1 α2 α3 α4 α5 : Type) where
  allocate : Nat → Except ε Nat
  deallocate : Nat → Nat → Except ε Unit
  invoke : φ → Except ε Unit
  is_continuation : Bool
  call0 : Except ε Unit
  call1 : α1 → Except ε Unit
  call2 : α1 → α2 → Except ε Unit
  call3 : α1 → α2 → α3 → Except ε Unit
  call4 : α1 → α2 → α3 → α4 → Except ε Unit
  call5 : α1 → α2 → α3 → α4 → α5 → Except ε Unit

/-- Modelled from the spec: a source handler wrapped by
`explicit_context_alloc_handler`.  The context wrapped by that adapter "is
additionally passed (by const reference) to the source handler as first
parameter", so this handler's `operator()` takes a `Context` first and then
the 0 to 5 forwarded arguments. -/
structure EHandler (ε φ α1 α2 α3 α4 α5 : Type) where
  allocate : Nat → Except ε Nat
  deallocate : Nat → Nat → Except ε Unit
  invoke : φ → Except ε Unit
  is_continuation : Bool
  call0 : Context ε φ → Except ε Unit
  call1 : Context ε φ → α1 → Except ε Unit
  call2 : Context ε φ → α1 → α2 → Except ε Unit
  call3 : Context ε φ → α1 → α2 → α3 → Except ε Unit
  call4 : Context ε φ → α1 → α2 → α3 → α4 → Except ε Unit
  call5 : Context ε φ → α1 → α2 → α3 → α4 → α5 → Except ε Unit

variable {ε φ α1 α2 α3 α4 α5 : Type}

/-- Modelled from the spec: `ma_handler_alloc_helpers::allocate`
(`ma/handler_alloc_helpers.hpp`, not under `src/`) dispatches to the
allocation strategy (`asio_handler_allocate`) associated with the given
object. -/
def ma_handler_alloc_helpers.allocate (size : Nat) (c : Context ε φ) :
    Except ε Nat :=
  c.allocate size

/-- Modelled from the spec: `ma_handler_alloc_helpers::deallocate` dispatches
to the deallocation strategy (`asio_handler_deallocate`) associated with the
given object. -/
def ma_handler_alloc_helpers.deallocate (pointer : Nat) (size : Nat)
    (c : Context ε φ) : Except ε Unit :=
  c.deallocate pointer size

/-- Modelled from the spec: `ma_handler_invoke_helpers::invoke`
(`ma/handler_invoke_helpers.hpp`, not under `src/`) dispatches the posted
function object to the invoke (execution) strategy (`asio_handler_invoke`)
associated with the given handler. -/
def ma_handler_invoke_helpers.invoke (function : φ)
    (h : Handler ε φ α1 α2 α3 α4 α5) : Except ε Unit :=
  h.invoke function

/-- Modelled from the spec: `ma_handler_invoke_helpers::invoke` applied to a
handler wrapped by `explicit_context_alloc_handler`. -/
def ma_handler_invoke_helpers.invokeE (function : φ)
    (h : EHandler ε φ α1 α2 α3 α4 α5) : Except ε Unit :=
  h.invoke function

/-- Modelled from the spec: `ma_handler_cont_helpers::is_continuation`
(`ma/handler_cont_helpers.hpp`, not under `src/`) queries the continuation
decision (`asio_handler_is_continuation`) associated with the given
handler. -/
def ma_handler_cont_helpers.is_continuation
    (h : Handler ε φ α1 α2 α3 α4 α5) : Bool :=
  h.is_continuation

/-- Modelled from the spec: `ma_handler_cont_helpers::is_continuation`
applied to a handler wrapped by `explicit_context_alloc_handler`. -/
def ma_handler_cont_helpers.is_continuationE
    (h : EHandler ε φ α1 α2 α3 α4 α5) : Bool :=
  h.is_continuation

/-- `ma::context_alloc_handler` (context_alloc_handler.hpp lines 63-240):
stores `context_` and `handler_` (lines 237-239), initialized from the
constructor arguments (lines 72-77). -/
structure context_alloc_handler (ε φ α1 α2 α3 α4 α5 : Type) where
  context_ : Context ε φ
  handler_ : Handler ε φ α1 α2 α3 α4 α5

namespace context_alloc_handler

/-- `asio_handler_allocate` friend hook (lines 102-107): forwards to the
allocation strategy provided by the specified allocation context. -/
def asio_handler_allocate (size : Nat)
    (context : context_alloc_handler ε φ α1 α2 α3 α4 α5) : Except ε Nat :=
  ma_handler_alloc_helpers.allocate size context.context_

/-- `asio_handler_deallocate` friend hook (lines 109-115). -/
def asio_handler_deallocate (pointer : Nat) (size : Nat)
    (context : context_alloc_handler ε φ α1 α2 α3 α4 α5) : Except ε Unit :=
  ma_handler_alloc_helpers.deallocate pointer size context.context_

/-- `asio_handler_invoke` friend hook (lines 119-126): forwards to the
invoke strategy provided by the source handler. -/
def asio_handler_invoke (function : φ)
    (context : context_alloc_handler ε φ α1 α2 α3 α4 α5) : Except ε Unit :=
  ma_handler_invoke_helpers.invoke function context.handler_

/-- `asio_handler_is_continuation` friend hook (lines 146-149). -/
def asio_handler_is_continuation
    (context : context_alloc_handler ε φ α1 α2 α3 α4 α5) : Bool :=
  ma_handler_cont_helpers.is_continuation context.handler_

/-- `operator()()` (lines 151-154). -/
def call0 (self : context_alloc_handler ε φ α1 α2 α3 α4 α5) :
    Except ε Unit :=
  self.handler_.call0

/-- `operator()(Arg1)` (lines 156-160). -/
def call1 (self : context_alloc_handler ε φ α1 α2 α3 α4 α5) (arg1 : α1) :
    Except ε Unit :=
  self.handler_.call1 arg1

/-- `operator()(Arg1, Arg2)` (lines 162-166). -/
def call2 (self : context_alloc_handler ε φ α1 α2 α3 α4 α5)
    (arg1 : α1) (arg2 : α2) : Except ε Unit :=
  self.handler_.call2 arg1 arg2

/-- `operator()(Arg1, Arg2, Arg3)` (lines 168-174). -/
def call3 (self : context_alloc_handler ε φ α1 α2 α3 α4 α5)
    (arg1 : α1) (arg2 : α2) (arg3 : α3) : Except ε Unit :=
  self.handler_.call3 arg1 arg2 arg3

/-- `operator()(Arg1, .., Arg4)` (lines 176-182). -/
def call4 (self : context_alloc_handler ε φ α1 α2 α3 α4 α5)
    (arg1 : α1) (arg2 : α2) (arg3 : α3) (arg4 : α4) : Except ε Unit :=
  self.handler_.call4 arg1 arg2 arg3 arg4

/-- `operator()(Arg1, .., Arg5)` (lines 184-192). -/
def call5 (self : context_alloc_handler ε φ α1 α2 α3 α4 α5)
    (arg1 : α1) (arg2 : α2) (arg3 : α3) (arg4 : α4) (arg5 : α5) :
    Except ε Unit :=
  self.handler_.call5 arg1 arg2 arg3 arg4 arg5

/-- `operator()() const` (lines 194-197); its body is identical to the
non-const variant. -/
def call0_const (self : context_alloc_handler ε φ α1 α2 α3 α4 α5) :
    Except ε Unit :=
  self.handler_.call0

/-- `operator()(Arg1) const` (lines 199-203). -/
def call1_const (self : context_alloc_handler ε φ α1 α2 α3 α4 α5)
    (arg1 : α1) : Except ε Unit :=
  self.handler_.call1 arg1

/-- `operator()(Arg1, Arg2) const` (lines 205-209). -/
def call2_const (self : context_alloc_handler ε φ α1 α2 α3 α4 α5)
    (arg1 : α1) (arg2 : α2) : Except ε Unit :=
  self.handler_.call2 arg1 arg2

/-- `operator()(Arg1, Arg2, Arg3) const` (lines 211-217). -/
def call3_const (self : context_alloc_handler ε φ α1 α2 α3 α4 α5)
    (arg1 : α1) (arg2 : α2) (arg3 : α3) : Except ε Unit :=
  self.handler_.call3 arg1 arg2 arg3

/-- `operator()(Arg1, .., Arg4) const` (lines 219-225). -/
def call4_const (self : context_alloc_handler ε φ α1 α2 α3 α4 α5)
    (arg1 : α1) (arg2 : α2) (arg3 : α3) (arg4 : α4) : Except ε Unit :=
  self.handler_.call4 arg1 arg2 arg3 arg4

/-- `operator()(Arg1, .., Arg5) const` (lines 227-235). -/
def call5_const (self : context_alloc_handler ε φ α1 α2 α3 α4 α5)
    (arg1 : α1) (arg2 : α2) (arg3 : α3) (arg4 : α4) (arg5 : α5) :
    Except ε Unit :=
  self.handler_.call5 arg1 arg2 arg3 arg4 arg5

end context_alloc_handler

/-- `ma::make_context_alloc_handler` (lines 247-258): constructs a
`context_alloc_handler` from the decayed context and handler arguments.
`detail::decay` is type-level and has no value content in the embedding. -/
def make_context_alloc_handler (context : Context ε φ)
    (handler : Handler ε φ α1 α2 α3 α4 α5) :
    context_alloc_handler ε φ α1 α2 α3 α4 α5 :=
  context_alloc_handler.mk context handler

/-- `ma::explicit_context_alloc_handler` (lines 274-445): stores `context_`
and `handler_` (lines 442-444), initialized from the constructor arguments
(lines 283-288). -/
structure explicit_context_alloc_handler (ε φ α1 α2 α3 α4 α5 : Type) where
  context_ : Context ε φ
  handler_ : EHandler ε φ α1 α2 α3 α4 α5

namespace explicit_context_alloc_handler

/-- `asio_handler_allocate` friend hook (lines 313-316). -/
def asio_handler_allocate (size : Nat)
    (context : explicit_context_alloc_handler ε φ α1 α2 α3 α4 α5) :
    Except ε Nat :=
  ma_handler_alloc_helpers.allocate size context.context_

/-- `asio_handler_deallocate` friend hook (lines 318-322). -/
def asio_handler_deallocate (pointer : Nat) (size : Nat)
    (context : explicit_context_alloc_handler ε φ α1 α2 α3 α4 α5) :
    Except ε Unit :=
  ma_handler_alloc_helpers.deallocate pointer size context.context_

/-- `asio_handler_invoke` friend hook (lines 326-332). -/
def asio_handler_invoke (function : φ)
    (context : explicit_context_alloc_handler ε φ α1 α2 α3 α4 α5) :
    Except ε Unit :=
  ma_handler_invoke_helpers.invokeE function context.handler_

/-- `asio_handler_is_continuation` friend hook (lines 350-353). -/
def asio_handler_is_continuation
    (context : explicit_context_alloc_handler ε φ α1 α2 α3 α4 α5) : Bool :=
  ma_handler_cont_helpers.is_continuationE context.handler_

/-- `operator()()` (lines 355-358): calls `handler_(context_)`. -/
def call0 (self : explicit_context_alloc_handler ε φ α1 α2 α3 α4 α5) :
    Except ε Unit :=
  self.handler_.call0 self.context_

/-- `operator()(Arg1)` (lines 360-364). -/
def call1 (self : explicit_context_alloc_handler ε φ α1 α2 α3 α4 α5)
    (arg1 : α1) : Except ε Unit :=
  self.handler_.call1 self.context_ arg1

/-- `operator()(Arg1, Arg2)` (lines 366-371). -/
def call2 (self : explicit_context_alloc_handler ε φ α1 α2 α3 α4 α5)
    (arg1 : α1) (arg2 : α2) : Except ε Unit :=
  self.handler_.call2 self.context_ arg1 arg2

/-- `operator()(Arg1, Arg2, Arg3)` (lines 373-379). -/
def call3 (self : explicit_context_alloc_handler ε φ α1 α2 α3 α4 α5)
    (arg1 : α1) (arg2 : α2) (arg3 : α3) : Except ε Unit :=
  self.handler_.call3 self.context_ arg1 arg2 arg3

/-- `operator()(Arg1, .., Arg4)` (lines 381-387). -/
def call4 (self : explicit_context_alloc_handler ε φ α1 α2 α3 α4 α5)
    (arg1 : α1) (arg2 : α2) (arg3 : α3) (arg4 : α4) : Except ε Unit :=
  self.handler_.call4 self.context_ arg1 arg2 arg3 arg4

/-- `operator()(Arg1, .., Arg5)` (lines 389-397). -/
def call5 (self : explicit_context_alloc_handler ε φ α1 α2 α3 α4 α5)
    (arg1 : α1) (arg2 : α2) (arg3 : α3) (arg4 : α4) (arg5 : α5) :
    Except ε Unit :=
  self.handler_.call5 self.context_ arg1 arg2 arg3 arg4 arg5

/-- `operator()() const` (lines 399-402); its body is identical to the
non-const variant. -/
def call0_const (self : explicit_context_alloc_handler ε φ α1 α2 α3 α4 α5) :
    Except ε Unit :=
  self.handler_.call0 self.context_

/-- `operator()(Arg1) const` (lines 404-408). -/
def call1_const (self : explicit_context_alloc_handler ε φ α1 α2 α3 α4 α5)
    (arg1 : α1) : Except ε Unit :=
  self.handler_.call1 self.context_ arg1

/-- `operator()(Arg1, Arg2) const` (lines 410-414). -/
def call2_const (self : explicit_context_alloc_handler ε φ α1 α2 α3 α4 α5)
    (arg1 : α1) (arg2 : α2) : Except ε Unit :=
  self.handler_.call2 self.context_ arg1 arg2

/-- `operator()(Arg1, Arg2, Arg3) const` (lines 416-422). -/
def call3_const (self : explicit_context_alloc_handler ε φ α1 α2 α3 α4 α5)
    (arg1 : α1) (arg2 : α2) (arg3 : α3) : Except ε Unit :=
  self.handler_.call3 self.context_ arg1 arg2 arg3

/-- `operator()(Arg1, .., Arg4) const` (lines 424-430). -/
def call4_const (self : explicit_context_alloc_handler ε φ α1 α2 α3 α4 α5)
    (arg1 : α1) (arg2 : α2) (arg3 : α3) (arg4 : α4) : Except ε Unit :=
  self.handler_.call4 self.context_ arg1 arg2 arg3 arg4

/-- `operator()(Arg1, .., Arg5) const` (lines 432-440). -/
def call5_const (self : explicit_context_alloc_handler ε φ α1 α2 α3 α4 α5)
    (arg1 : α1) (arg2 : α2) (arg3 : α3) (arg4 : α4) (arg5 : α5) :
    Except ε Unit :=
  self.handler_.call5 self.context_ arg1 arg2 arg3 arg4 arg5

end explicit_context_alloc_handler

/-- `ma::make_explicit_context_alloc_handler` (lines 451-462). -/
def make_explicit_context_alloc_handler (context : Context ε φ)
    (handler : EHandler ε φ α1 α2 α3 α4 α5) :
    explicit_context_alloc_handler ε φ α1 α2 α3 α4 α5 :=
  explicit_context_alloc_handler.mk context handler

/-- Concrete context used by counterexamples and witnesses; `k` makes
distinct contexts distinguishable through every strategy. -/
def sampleContext (k : Nat) : Context Nat Nat where
  allocate := fun size => Except.ok (size + k)
  deallocate := fun _ _ => Except.ok ()
  invoke := fun f => if k == 0 then Except.ok () else Except.error (f + k)
  is_continuation := k == 0

/-- Concrete handler (for `context_alloc_handler`) used by counterexamples
and witnesses. -/
def sampleHandler (k : Nat) : Handler Nat Nat Nat Nat Nat Nat Nat where
  allocate := fun size => Except.ok (size * 2 + k)
  deallocate := fun _ _ => Except.ok ()
  invoke := fun f => if k == 0 then Except.ok () else Except.error (f * 10 + k)
  is_continuation := k == 0
  call0 := Except.ok ()
  call1 := fun a => Except.error (a + k)
  call2 := fun a b => Except.error (a + b + k)
  call3 := fun a b c => Except.error (a + b + c + k)
  call4 := fun a b c d => Except.error (a + b + c + d + k)
  call5 := fun a b c d e => Except.error (a + b + c + d + e + k)

/-- Concrete handler (for `explicit_context_alloc_handler`) used by
counterexamples and witnesses; its calls consult the context it receives as
first argument, making the prepended context observable. -/
def sampleEHandler (k : Nat) : EHandler Nat Nat Nat Nat Nat Nat Nat where
  allocate := fun size => Except.ok (size * 3 + k)
  deallocate := fun _ _ => Except.ok ()
  invoke := fun f => if k == 0 then Except.ok () else Except.error (f * 100 + k)
  is_continuation := k == 0
  call0 := fun c => c.invoke 0
  call1 := fun c a => if c.is_continuation then Except.ok () else Except.error (a + k)
  call2 := fun c a b => if c.is_continuation then Except.ok () else Except.error (a + b + k)
  call3 := fun c a b d => if c.is_continuation then Except.ok () else Except.error (a + b + d + k)
  call4 := fun c a b d e => if c.is_continuation then Except.ok () else Except.error (a + b + d + e + k)
  call5 := fun c a b d e f => if c.is_continuation then Except.ok () else Except.error (a + b + d + e + f + k)

/-- Concrete `context_alloc_handler` wrapper: context 0, handler 0. -/
def cahW00 : context_alloc_handler Nat Nat Nat Nat Nat Nat Nat :=
  context_alloc_handler.mk (sampleContext 0) (sampleHandler 0)

/-- Concrete `context_alloc_handler` wrapper: context 0, handler 1. -/
def cahW01 : context_alloc_handler Nat Nat Nat Nat Nat Nat Nat :=
  context_alloc_handler.mk (sampleContext 0) (sampleHandler 1)

/-- Concrete `context_alloc_handler` wrapper: context 1, handler 0. -/
def cahW10 : context_alloc_handler Nat Nat Nat Nat Nat Nat Nat :=
  context_alloc_handler.mk (sampleContext 1) (sampleHandler 0)

/-- Concrete `explicit_context_alloc_handler` wrapper: context 0, handler 0. -/
def ecahV00 : explicit_context_alloc_handler Nat Nat Nat Nat Nat Nat Nat :=
  explicit_context_alloc_handler.mk (sampleContext 0) (sampleEHandler 0)

/-- Concrete `explicit_context_alloc_handler` wrapper: context 0, handler 1. -/
def ecahV01 : explicit_context_alloc_handler Nat Nat Nat Nat Nat Nat Nat :=
  explicit_context_alloc_handler.mk (sampleContext 0) (sampleEHandler 1)

/-- Concrete `explicit_context_alloc_handler` wrapper: context 1, handler 0. -/
def ecahV10 : explicit_context_alloc_handler Nat Nat Nat Nat Nat Nat Nat :=
  explicit_context_alloc_handler.mk (sampleContext 1) (sampleEHandler 0)

end ma

namespace ma

variable {ε φ α1 α2 α3 α4 α5 : Type}

/-- C1: for every `context_alloc_handler` wrapper and every argument count
0 to 5, in both the const and the non-const variant, `operator()` calls the
wrapped handler's `operator()` with exactly the received arguments, in the
same order, with nothing added or removed; the result type is `void`
(`Except ε Unit` in the embedding, so the outcome of the wrapper call is
exactly the outcome of the handler call). -/
theorem context_alloc_handler_forwards_args
    (w : context_alloc_handler ε φ α1 α2 α3 α4 α5)
    (a1 : α1) (a2 : α2) (a3 : α3) (a4 : α4) (a5 : α5) :
    w.call0 = w.handler_.call0 ∧
    w.call1 a1 = w.handler_.call1 a1 ∧
    w.call2 a1 a2 = w.handler_.call2 a1 a2 ∧
    w.call3 a1 a2 a3 = w.handler_.call3 a1 a2 a3 ∧
    w.call4 a1 a2 a3 a4 = w.handler_.call4 a1 a2 a3 a4 ∧
    w.call5 a1 a2 a3 a4 a5 = w.handler_.call5 a1 a2 a3 a4 a5 ∧
    w.call0_const = w.handler_.call0 ∧
    w.call1_const a1 = w.handler_.call1 a1 ∧
    w.call2_const a1 a2 = w.handler_.call2 a1 a2 ∧
    w.call3_const a1 a2 a3 = w.handler_.call3 a1 a2 a3 ∧
    w.call4_const a1 a2 a3 a4 = w.handler_.call4 a1 a2 a3 a4 ∧
    w.call5_const a1 a2 a3 a4 a5 = w.handler_.call5 a1 a2 a3 a4 a5 :=
  ⟨rfl, rfl, rfl, rfl, rfl, rfl, rfl, rfl, rfl, rfl, rfl, rfl⟩

/-- C2 counterexample: for `explicit_context_alloc_handler` the forwarded
call does NOT happen with arguments identical to the arriving call: the
stored context is passed in addition.  Concretely, the wrappers `ecahV00`
and `ecahV10` store the same handler and receive the same (empty) argument
list, yet their `operator()()` calls produce different outcomes — possible
only because the forwarded call also receives the stored context. -/
theorem explicit_forward_not_identical_args_cex :
    ecahV00.handler_ = ecahV10.handler_ ∧
      explicit_context_alloc_handler.call0 ecahV00
        ≠ explicit_context_alloc_handler.call0 ecahV10 := by
  refine ⟨rfl, fun h => ?_⟩
  simp [ecahV00, ecahV10, explicit_context_alloc_handler.call0, sampleEHandler,
    sampleContext] at h

/-- C2 amended: when a call arrives at a wrapper's `operator()`, the
arriving arguments are forwarded to the wrapped handler unchanged and in
order; for `context_alloc_handler` they are exactly the forwarded argument
list, while for `explicit_context_alloc_handler` the stored context is
additionally passed as first argument before them. -/
theorem wrappers_forward_args_amended
    (w : context_alloc_handler ε φ α1 α2 α3 α4 α5)
    (v : explicit_context_alloc_handler ε φ α1 α2 α3 α4 α5)
    (a1 : α1) (a2 : α2) (a3 : α3) (a4 : α4) (a5 : α5) :
    (w.call0 = w.handler_.call0 ∧
     w.call1 a1 = w.handler_.call1 a1 ∧
     w.call2 a1 a2 = w.handler_.call2 a1 a2 ∧
     w.call3 a1 a2 a3 = w.handler_.call3 a1 a2 a3 ∧
     w.call4 a1 a2 a3 a4 = w.handler_.call4 a1 a2 a3 a4 ∧
     w.call5 a1 a2 a3 a4 a5 = w.handler_.call5 a1 a2 a3 a4 a5 ∧
     w.call0_const = w.handler_.call0 ∧
     w.call1_const a1 = w.handler_.call1 a1 ∧
     w.call2_const a1 a2 = w.handler_.call2 a1 a2 ∧
     w.call3_const a1 a2 a3 = w.handler_.call3 a1 a2 a3 ∧
     w.call4_const a1 a2 a3 a4 = w.handler_.call4 a1 a2 a3 a4 ∧
     w.call5_const a1 a2 a3 a4 a5 = w.handler_.call5 a1 a2 a3 a4 a5) ∧
    (v.call0 = v.handler_.call0 v.context_ ∧
     v.call1 a1 = v.handler_.call1 v.context_ a1 ∧
     v.call2 a1 a2 = v.handler_.call2 v.context_ a1 a2 ∧
     v.call3 a1 a2 a3 = v.handler_.call3 v.context_ a1 a2 a3 ∧
     v.call4 a1 a2 a3 a4 = v.handler_.call4 v.context_ a1 a2 a3 a4 ∧
     v.call5 a1 a2 a3 a4 a5 = v.handler_.call5 v.context_ a1 a2 a3 a4 a5 ∧
     v.call0_const = v.handler_.call0 v.context_ ∧
     v.call1_const a1 = v.handler_.call1 v.context_ a1 ∧
     v.call2_const a1 a2 = v.handler_.call2 v.context_ a1 a2 ∧
     v.call3_const a1 a2 a3 = v.handler_.call3 v.context_ a1 a2 a3 ∧
     v.call4_const a1 a2 a3 a4 = v.handler_.call4 v.context_ a1 a2 a3 a4 ∧
     v.call5_const a1 a2 a3 a4 a5
       = v.handler_.call5 v.context_ a1 a2 a3 a4 a5) := by
  repeat' apply And.intro
  all_goals rfl

/-- C3 counterexample: `asio_handler_invoke` does NOT dispatch via the
invoke strategy of the stored context.  For the concrete wrapper `cahW10`
(context with failing invoke strategy, handler with succeeding one) and
function object `7`, `asio_handler_invoke` differs from the context's
invoke strategy applied to the same function object. -/
theorem invoke_not_context_strategy_cex :
    context_alloc_handler.asio_handler_invoke 7 cahW10
      ≠ cahW10.context_.invoke 7 := by
  intro h
  simp [cahW10, context_alloc_handler.asio_handler_invoke,
    ma_handler_invoke_helpers.invoke, sampleHandler, sampleContext] at h

/-- C3 amended: for every wrapper of either class, `asio_handler_invoke`
dispatches the posted function object via the invoke strategy of the
wrapped source handler stored in the wrapper (the context overrides only
the allocation strategy, not the execution strategy). -/
theorem invoke_uses_handler_strategy
    (w : context_alloc_handler ε φ α1 α2 α3 α4 α5)
    (v : explicit_context_alloc_handler ε φ α1 α2 α3 α4 α5) (f : φ) :
    context_alloc_handler.asio_handler_invoke f w = w.handler_.invoke f ∧
    explicit_context_alloc_handler.asio_handler_invoke f v
      = v.handler_.invoke f :=
  ⟨rfl, rfl⟩

/-- C4: for every wrapper of either class and every size,
`asio_handler_allocate` returns exactly the stored context's allocation
strategy applied to that size, and `asio_handler_deallocate` forwards the
same pointer and size to the stored context's deallocation strategy; the
wrapped handler's allocation strategy is never used (replacing the stored
handler by any other leaves both hooks unchanged). -/
theorem alloc_hooks_use_context_strategy
    (w : context_alloc_handler ε φ α1 α2 α3 α4 α5)
    (v : explicit_context_alloc_handler ε φ α1 α2 α3 α4 α5)
    (size pointer : Nat) :
    context_alloc_handler.asio_handler_allocate size w
      = w.context_.allocate size ∧
    context_alloc_handler.asio_handler_deallocate pointer size w
      = w.context_.deallocate pointer size ∧
    explicit_context_alloc_handler.asio_handler_allocate size v
      = v.context_.allocate size ∧
    explicit_context_alloc_handler.asio_handler_deallocate pointer size v
      = v.context_.deallocate pointer size ∧
    (∀ h2 : Handler ε φ α1 α2 α3 α4 α5,
      context_alloc_handler.asio_handler_allocate size
          (context_alloc_handler.mk w.context_ h2)
        = context_alloc_handler.asio_handler_allocate size w) ∧
    (∀ h2 : Handler ε φ α1 α2 α3 α4 α5,
      context_alloc_handler.asio_handler_deallocate pointer size
          (context_alloc_handler.mk w.context_ h2)
        = context_alloc_handler.asio_handler_deallocate pointer size w) ∧
    (∀ h2 : EHandler ε φ α1 α2 α3 α4 α5,
      explicit_context_alloc_handler.asio_handler_allocate size
          (explicit_context_alloc_handler.mk v.context_ h2)
        = explicit_context_alloc_handler.asio_handler_allocate size v) ∧
    (∀ h2 : EHandler ε φ α1 α2 α3 α4 α5,
      explicit_context_alloc_handler.asio_handler_deallocate pointer size
          (explicit_context_alloc_handler.mk v.context_ h2)
        = explicit_context_alloc_handler.asio_handler_deallocate pointer size v) :=
  ⟨rfl, rfl, rfl, rfl, fun _ => rfl, fun _ => rfl, fun _ => rfl, fun _ => rfl⟩

/-- C5: for every wrapper of either class, `asio_handler_is_continuation`
returns exactly the continuation decision of the wrapped source handler,
not that of the context object (replacing the stored context by any other
leaves the hook unchanged). -/
theorem is_continuation_uses_handler
    (w : context_alloc_handler ε φ α1 α2 α3 α4 α5)
    (v : explicit_context_alloc_handler ε φ α1 α2 α3 α4 α5) :
    context_alloc_handler.asio_handler_is_continuation w
      = w.handler_.is_continuation ∧
    explicit_context_alloc_handler.asio_handler_is_continuation v
      = v.handler_.is_continuation ∧
    (∀ c2 : Context ε φ,
      context_alloc_handler.asio_handler_is_continuation
          (context_alloc_handler.mk c2 w.handler_)
        = context_alloc_handler.asio_handler_is_continuation w) ∧
    (∀ c2 : Context ε φ,
      explicit_context_alloc_handler.asio_handler_is_continuation
          (explicit_context_alloc_handler.mk c2 v.handler_)
        = explicit_context_alloc_handler.asio_handler_is_continuation v) :=
  ⟨rfl, rfl, fun _ => rfl, fun _ => rfl⟩

/-- C6: no operation of either wrapper performs failure handling of its own:
each `operator()` overload (const and non-const, arities 0-5) and each of
`asio_handler_allocate`, `asio_handler_deallocate`, `asio_handler_invoke`
raises an error exactly when the underlying forwarded call on the wrapped
handler or the context raises, and it is that same error (definitional
equality of outcomes also rules out any other visible action);
`asio_handler_is_continuation` returns the underlying decision and cannot
raise. -/
theorem ops_propagate_errors_exactly
    (w : context_alloc_handler ε φ α1 α2 α3 α4 α5)
    (v : explicit_context_alloc_handler ε φ α1 α2 α3 α4 α5)
    (a1 : α1) (a2 : α2) (a3 : α3) (a4 : α4) (a5 : α5)
    (size pointer : Nat) (f : φ) :
    (∀ e, w.call0 = Except.error e ↔ w.handler_.call0 = Except.error e) ∧
    (∀ e, w.call1 a1 = Except.error e
        ↔ w.handler_.call1 a1 = Except.error e) ∧
    (∀ e, w.call2 a1 a2 = Except.error e
        ↔ w.handler_.call2 a1 a2 = Except.error e) ∧
    (∀ e, w.call3 a1 a2 a3 = Except.error e
        ↔ w.handler_.call3 a1 a2 a3 = Except.error e) ∧
    (∀ e, w.call4 a1 a2 a3 a4 = Except.error e
        ↔ w.handler_.call4 a1 a2 a3 a4 = Except.error e) ∧
    (∀ e, w.call5 a1 a2 a3 a4 a5 = Except.error e
        ↔ w.handler_.call5 a1 a2 a3 a4 a5 = Except.error e) ∧
    (∀ e, w.call0_const = Except.error e
        ↔ w.handler_.call0 = Except.error e) ∧
    (∀ e, w.call1_const a1 = Except.error e
        ↔ w.handler_.call1 a1 = Except.error e) ∧
    (∀ e, w.call2_const a1 a2 = Except.error e
        ↔ w.handler_.call2 a1 a2 = Except.error e) ∧
    (∀ e, w.call3_const a1 a2 a3 = Except.error e
        ↔ w.handler_.call3 a1 a2 a3 = Except.error e) ∧
    (∀ e, w.call4_const a1 a2 a3 a4 = Except.error e
        ↔ w.handler_.call4 a1 a2 a3 a4 = Except.error e) ∧
    (∀ e, w.call5_const a1 a2 a3 a4 a5 = Except.error e
        ↔ w.handler_.call5 a1 a2 a3 a4 a5 = Except.error e) ∧
    (∀ e, context_alloc_handler.asio_handler_allocate size w = Except.error e
        ↔ w.context_.allocate size = Except.error e) ∧
    (∀ e, context_alloc_handler.asio_handler_deallocate pointer size w
          = Except.error e
        ↔ w.context_.deallocate pointer size = Except.error e) ∧
    (∀ e, context_alloc_handler.asio_handler_invoke f w = Except.error e
        ↔ w.handler_.invoke f = Except.error e) ∧
    (context_alloc_handler.asio_handler_is_continuation w
      = w.handler_.is_continuation) ∧
    (∀ e, v.call0 = Except.error e
        ↔ v.handler_.call0 v.context_ = Except.error e) ∧
    (∀ e, v.call1 a1 = Except.error e
        ↔ v.handler_.call1 v.context_ a1 = Except.error e) ∧
    (∀ e, v.call2 a1 a2 = Except.error e
        ↔ v.handler_.call2 v.context_ a1 a2 = Except.error e) ∧
    (∀ e, v.call3 a1 a2 a3 = Except.error e
        ↔ v.handler_.call3 v.context_ a1 a2 a3 = Except.error e) ∧
    (∀ e, v.call4 a1 a2 a3 a4 = Except.error e
        ↔ v.handler_.call4 v.context_ a1 a2 a3 a4 = Except.error e) ∧
    (∀ e, v.call5 a1 a2 a3 a4 a5 = Except.error e
        ↔ v.handler_.call5 v.context_ a1 a2 a3 a4 a5 = Except.error e) ∧
    (∀ e, v.call0_const = Except.error e
        ↔ v.handler_.call0 v.context_ = Except.error e) ∧
    (∀ e, v.call1_const a1 = Except.error e
        ↔ v.handler_.call1 v.context_ a1 = Except.error e) ∧
    (∀ e, v.call2_const a1 a2 = Except.error e
        ↔ v.handler_.call2 v.context_ a1 a2 = Except.error e) ∧
    (∀ e, v.call3_const a1 a2 a3 = Except.error e
        ↔ v.handler_.call3 v.context_ a1 a2 a3 = Except.error e) ∧
    (∀ e, v.call4_const a1 a2 a3 a4 = Except.error e
        ↔ v.handler_.call4 v.context_ a1 a2 a3 a4 = Except.error e) ∧
    (∀ e, v.call5_const a1 a2 a3 a4 a5 = Except.error e
        ↔ v.handler_.call5 v.context_ a1 a2 a3 a4 a5 = Except.error e) ∧
    (∀ e, explicit_context_alloc_handler.asio_handler_allocate size v
          = Except.error e
        ↔ v.context_.allocate size = Except.error e) ∧
    (∀ e, explicit_context_alloc_handler.asio_handler_deallocate pointer size v
          = Except.error e
        ↔ v.context_.deallocate pointer size = Except.error e) ∧
    (∀ e, explicit_context_alloc_handler.asio_handler_invoke f v
          = Except.error e
        ↔ v.handler_.invoke f = Except.error e) ∧
    (explicit_context_alloc_handler.asio_handler_is_continuation v
      = v.handler_.is_continuation) := by
  repeat' apply And.intro
  all_goals first
    | rfl
    | exact fun _ => Iff.rfl

/-- C7: every forwarding function of the header exists for each argument
count 0 through 5 and, for `operator()`, in const and non-const variants;
each forwards its arguments in the original order, and each body is a
single direct forward call: `operator()` to the wrapped handler, and the
four hooks to the corresponding `ma_handler_*_helpers` helper applied to
the stored member. -/
theorem all_overloads_single_forward
    (w : context_alloc_handler ε φ α1 α2 α3 α4 α5)
    (v : explicit_context_alloc_handler ε φ α1 α2 α3 α4 α5)
    (a1 : α1) (a2 : α2) (a3 : α3) (a4 : α4) (a5 : α5)
    (size pointer : Nat) (f : φ) :
    (w.call0 = w.handler_.call0 ∧
     w.call1 a1 = w.handler_.call1 a1 ∧
     w.call2 a1 a2 = w.handler_.call2 a1 a2 ∧
     w.call3 a1 a2 a3 = w.handler_.call3 a1 a2 a3 ∧
     w.call4 a1 a2 a3 a4 = w.handler_.call4 a1 a2 a3 a4 ∧
     w.call5 a1 a2 a3 a4 a5 = w.handler_.call5 a1 a2 a3 a4 a5 ∧
     w.call0_const = w.handler_.call0 ∧
     w.call1_const a1 = w.handler_.call1 a1 ∧
     w.call2_const a1 a2 = w.handler_.call2 a1 a2 ∧
     w.call3_const a1 a2 a3 = w.handler_.call3 a1 a2 a3 ∧
     w.call4_const a1 a2 a3 a4 = w.handler_.call4 a1 a2 a3 a4 ∧
     w.call5_const a1 a2 a3 a4 a5 = w.handler_.call5 a1 a2 a3 a4 a5) ∧
    (context_alloc_handler.asio_handler_allocate size w
       = ma_handler_alloc_helpers.allocate size w.context_ ∧
     context_alloc_handler.asio_handler_deallocate pointer size w
       = ma_handler_alloc_helpers.deallocate pointer size w.context_ ∧
     context_alloc_handler.asio_handler_invoke f w
       = ma_handler_invoke_helpers.invoke f w.handler_ ∧
     context_alloc_handler.asio_handler_is_continuation w
       = ma_handler_cont_helpers.is_continuation w.handler_) ∧
    (v.call0 = v.handler_.call0 v.context_ ∧
     v.call1 a1 = v.handler_.call1 v.context_ a1 ∧
     v.call2 a1 a2 = v.handler_.call2 v.context_ a1 a2 ∧
     v.call3 a1 a2 a3 = v.handler_.call3 v.context_ a1 a2 a3 ∧
     v.call4 a1 a2 a3 a4 = v.handler_.call4 v.context_ a1 a2 a3 a4 ∧
     v.call5 a1 a2 a3 a4 a5 = v.handler_.call5 v.context_ a1 a2 a3 a4 a5 ∧
     v.call0_const = v.handler_.call0 v.context_ ∧
     v.call1_const a1 = v.handler_.call1 v.context_ a1 ∧
     v.call2_const a1 a2 = v.handler_.call2 v.context_ a1 a2 ∧
     v.call3_const a1 a2 a3 = v.handler_.call3 v.context_ a1 a2 a3 ∧
     v.call4_const a1 a2 a3 a4 = v.handler_.call4 v.context_ a1 a2 a3 a4 ∧
     v.call5_const a1 a2 a3 a4 a5
       = v.handler_.call5 v.context_ a1 a2 a3 a4 a5) ∧
    (explicit_context_alloc_handler.asio_handler_allocate size v
       = ma_handler_alloc_helpers.allocate size v.context_ ∧
     explicit_context_alloc_handler.asio_handler_deallocate pointer size v
       = ma_handler_alloc_helpers.deallocate pointer size v.context_ ∧
     explicit_context_alloc_handler.asio_handler_invoke f v
       = ma_handler_invoke_helpers.invokeE f v.handler_ ∧
     explicit_context_alloc_handler.asio_handler_is_continuation v
       = ma_handler_cont_helpers.is_continuationE v.handler_) := by
  repeat' apply And.intro
  all_goals rfl

/-- C8: for every `explicit_context_alloc_handler` wrapper and every
argument count 0 to 5 (const and non-const variants), `operator()` with
arguments a1..an calls the wrapped handler with n+1 arguments: the stored
context first, followed by a1..an in their original order. -/
theorem explicit_prepends_context
    (v : explicit_context_alloc_handler ε φ α1 α2 α3 α4 α5)
    (a1 : α1) (a2 : α2) (a3 : α3) (a4 : α4) (a5 : α5) :
    v.call0 = v.handler_.call0 v.context_ ∧
    v.call1 a1 = v.handler_.call1 v.context_ a1 ∧
    v.call2 a1 a2 = v.handler_.call2 v.context_ a1 a2 ∧
    v.call3 a1 a2 a3 = v.handler_.call3 v.context_ a1 a2 a3 ∧
    v.call4 a1 a2 a3 a4 = v.handler_.call4 v.context_ a1 a2 a3 a4 ∧
    v.call5 a1 a2 a3 a4 a5 = v.handler_.call5 v.context_ a1 a2 a3 a4 a5 ∧
    v.call0_const = v.handler_.call0 v.context_ ∧
    v.call1_const a1 = v.handler_.call1 v.context_ a1 ∧
    v.call2_const a1 a2 = v.handler_.call2 v.context_ a1 a2 ∧
    v.call3_const a1 a2 a3 = v.handler_.call3 v.context_ a1 a2 a3 ∧
    v.call4_const a1 a2 a3 a4 = v.handler_.call4 v.context_ a1 a2 a3 a4 ∧
    v.call5_const a1 a2 a3 a4 a5 = v.handler_.call5 v.context_ a1 a2 a3 a4 a5 :=
  ⟨rfl, rfl, rfl, rfl, rfl, rfl, rfl, rfl, rfl, rfl, rfl, rfl⟩

/-- C9: the allocation hooks and the invocation hooks are separated.  For
either wrapper class: two wrappers with the same stored context (and
different stored handlers) agree on `asio_handler_allocate` and
`asio_handler_deallocate` for all inputs, and two wrappers with the same
stored handler (and different stored contexts) agree on
`asio_handler_invoke` and `asio_handler_is_continuation`. -/
theorem hooks_noninterference
    (w1 w2 w3 w4 : context_alloc_handler ε φ α1 α2 α3 α4 α5)
    (v1 v2 v3 v4 : explicit_context_alloc_handler ε φ α1 α2 α3 α4 α5)
    (hw12c : w1.context_ = w2.context_) (hw12h : w1.handler_ ≠ w2.handler_)
    (hw34h : w3.handler_ = w4.handler_) (hw34c : w3.context_ ≠ w4.context_)
    (hv12c : v1.context_ = v2.context_) (hv12h : v1.handler_ ≠ v2.handler_)
    (hv34h : v3.handler_ = v4.handler_) (hv34c : v3.context_ ≠ v4.context_) :
    (∀ size, context_alloc_handler.asio_handler_allocate size w1
       = context_alloc_handler.asio_handler_allocate size w2) ∧
    (∀ pointer size,
       context_alloc_handler.asio_handler_deallocate pointer size w1
         = context_alloc_handler.asio_handler_deallocate pointer size w2) ∧
    (∀ f : φ, context_alloc_handler.asio_handler_invoke f w3
       = context_alloc_handler.asio_handler_invoke f w4) ∧
    (context_alloc_handler.asio_handler_is_continuation w3
       = context_alloc_handler.asio_handler_is_continuation w4) ∧
    (∀ size, explicit_context_alloc_handler.asio_handler_allocate size v1
       = explicit_context_alloc_handler.asio_handler_allocate size v2) ∧
    (∀ pointer size,
       explicit_context_alloc_handler.asio_handler_deallocate pointer size v1
         = explicit_context_alloc_handler.asio_handler_deallocate pointer
             size v2) ∧
    (∀ f : φ, explicit_context_alloc_handler.asio_handler_invoke f v3
       = explicit_context_alloc_handler.asio_handler_invoke f v4) ∧
    (explicit_context_alloc_handler.asio_handler_is_continuation v3
       = explicit_context_alloc_handler.asio_handler_is_continuation v4) := by
  refine ⟨?_, ?_, ?_, ?_, ?_, ?_, ?_, ?_⟩ <;>
    simp [context_alloc_handler.asio_handler_allocate,
      context_alloc_handler.asio_handler_deallocate,
      context_alloc_handler.asio_handler_invoke,
      context_alloc_handler.asio_handler_is_continuation,
      explicit_context_alloc_handler.asio_handler_allocate,
      explicit_context_alloc_handler.asio_handler_deallocate,
      explicit_context_alloc_handler.asio_handler_invoke,
      explicit_context_alloc_handler.asio_handler_is_continuation,
      ma_handler_alloc_helpers.allocate, ma_handler_alloc_helpers.deallocate,
      ma_handler_invoke_helpers.invoke, ma_handler_invoke_helpers.invokeE,
      ma_handler_cont_helpers.is_continuation,
      ma_handler_cont_helpers.is_continuationE,
      hw12c, hw34h, hv12c, hv34h]

/-- C9 witness: the noninterference theorem applied to the concrete
wrappers `cahW00`/`cahW01` (same context, different handlers),
`cahW00`/`cahW10` (same handler, different contexts) and their
`explicit_context_alloc_handler` counterparts. -/
theorem hooks_noninterference_witness :
    (cahW00.context_ = cahW01.context_ ∧ cahW00.handler_ ≠ cahW01.handler_ ∧
     cahW00.handler_ = cahW10.handler_ ∧ cahW00.context_ ≠ cahW10.context_ ∧
     ecahV00.context_ = ecahV01.context_ ∧
     ecahV00.handler_ ≠ ecahV01.handler_ ∧
     ecahV00.handler_ = ecahV10.handler_ ∧
     ecahV00.context_ ≠ ecahV10.context_) ∧
    ((∀ size, context_alloc_handler.asio_handler_allocate size cahW00
        = context_alloc_handler.asio_handler_allocate size cahW01) ∧
     (∀ pointer size,
        context_alloc_handler.asio_handler_deallocate pointer size cahW00
          = context_alloc_handler.asio_handler_deallocate pointer size cahW01) ∧
     (∀ f : Nat, context_alloc_handler.asio_handler_invoke f cahW00
        = context_alloc_handler.asio_handler_invoke f cahW10) ∧
     (context_alloc_handler.asio_handler_is_continuation cahW00
        = context_alloc_handler.asio_handler_is_continuation cahW10) ∧
     (∀ size, explicit_context_alloc_handler.asio_handler_allocate size ecahV00
        = explicit_context_alloc_handler.asio_handler_allocate size ecahV01) ∧
     (∀ pointer size,
        explicit_context_alloc_handler.asio_handler_deallocate pointer size
            ecahV00
          = explicit_context_alloc_handler.asio_handler_deallocate pointer size
              ecahV01) ∧
     (∀ f : Nat, explicit_context_alloc_handler.asio_handler_invoke f ecahV00
        = explicit_context_alloc_handler.asio_handler_invoke f ecahV10) ∧
     (explicit_context_alloc_handler.asio_handler_is_continuation ecahV00
        = explicit_context_alloc_handler.asio_handler_is_continuation
            ecahV10)) := by
  have hwh : cahW00.handler_ ≠ cahW01.handler_ :=
    fun h => absurd (congrArg Handler.is_continuation h) (by decide)
  have hwc : cahW00.context_ ≠ cahW10.context_ :=
    fun h => absurd (congrArg Context.is_continuation h) (by decide)
  have hvh : ecahV00.handler_ ≠ ecahV01.handler_ :=
    fun h => absurd (congrArg EHandler.is_continuation h) (by decide)
  have hvc : ecahV00.context_ ≠ ecahV10.context_ :=
    fun h => absurd (congrArg Context.is_continuation h) (by decide)
  exact ⟨⟨rfl, hwh, rfl, hwc, rfl, hvh, rfl, hvc⟩,
    hooks_noninterference cahW00 cahW01 cahW00 cahW10
      ecahV00 ecahV01 ecahV00 ecahV10 rfl hwh rfl hwc rfl hvh rfl hvc⟩

/-- C10: for every context value and handler value, the factory functions
produce exactly the wrapper obtained by direct construction: the stored
context and handler of the result equal the given arguments, for both
`make_context_alloc_handler` and `make_explicit_context_alloc_handler`. -/
theorem make_functions_equal_direct_construction
    (c : Context ε φ) (h : Handler ε φ α1 α2 α3 α4 α5)
    (eh : EHandler ε φ α1 α2 α3 α4 α5) :
    make_context_alloc_handler c h = context_alloc_handler.mk c h ∧
    (make_context_alloc_handler c h).context_ = c ∧
    (make_context_alloc_handler c h).handler_ = h ∧
    make_explicit_context_alloc_handler c eh
      = explicit_context_alloc_handler.mk c eh ∧
    (make_explicit_context_alloc_handler c eh).context_ = c ∧
    (make_explicit_context_alloc_handler c eh).handler_ = eh :=
  ⟨rfl, rfl, rfl, rfl, rfl, rfl⟩

end ma
